import Mathlib

/-!
Verification of the Competency Mastery Orchestration Engine against its
implementation (langchain-agents/agents/collective_validation_agent.py,
academic_compliance_agent.py, gemini_compliance_agent.py).

Shallow embedding conventions:
* Python dicts keyed by strings become association lists (`List (String × String)`),
  with `dictGet` modelling `dict.get` (first binding wins, `none` when absent).
* Python floats are embedded as exact rationals `ℚ`.
* Calls to the external content-generation services (OpenAI / Gemini) are
  represented by the request value the code builds (`ChatRequest`), or, for the
  workflow orchestrator, by an explicit oracle parameter
  `String → Except String String` standing for the nondeterministic external
  service (`.error` models the raised exception caught by the `except` block).
* Methods never reassign the agent's loaded state (`self.referentiels`,
  `self.teachers_config`); the state-passing variants return the post-call
  state explicitly so that frame properties can be stated.
-/

/-- One student progress record: the Python dict mapping competency ids to
mastery labels, as passed in `student_progress_data`
(collective_validation_agent.py line 14). -/
abbrev StudentProgress := List (String × String)

/-- Python `dict.get key`: the value of the first binding of `key`, or `none`
when the key is absent. -/
def dictGet (d : StudentProgress) (k : String) : Option String :=
  (d.find? (fun p => p.1 == k)).map Prod.snd

/-- collective_validation_agent.py line 24:
`mastery_count = sum(1 for student in student_progress_data if student.get(competence_id) == "maîtrisé")`. -/
def mastery_count (student_progress_data : List StudentProgress) (competence_id : String) : Nat :=
  student_progress_data.countP (fun student => dictGet student competence_id == some "maîtrisé")

/-- collective_validation_agent.py line 25:
`mastery_ratio = mastery_count / len(student_progress_data) if student_progress_data else 0`. -/
def mastery_ratio (student_progress_data : List StudentProgress) (competence_id : String) : ℚ :=
  if student_progress_data.isEmpty then 0
  else (mastery_count student_progress_data competence_id : ℚ) / (student_progress_data.length : ℚ)

/-- collective_validation_agent.py lines 14-26, `check_collective_mastery`:
returns `mastery_ratio >= threshold` (the Python default for `threshold` is 0.9). -/
def check_collective_mastery (student_progress_data : List StudentProgress)
    (competence_id : String) (threshold : ℚ) : Bool :=
  decide (mastery_ratio student_progress_data competence_id ≥ threshold)

/-- A request to the external chat-completion service: the `system` and `user`
message contents the code builds before calling the API. -/
structure ChatRequest where
  system : String
  user : String
deriving DecidableEq

/-- Text of the collective-assessment prompt before the competency id
(collective_validation_agent.py lines 37-42). -/
def assessP1 : String :=
  "\n        En tant qu'ingénieur pédagogique, créez un devoir de validation collective pour la compétence avec l'ID '"

/-- Text of the collective-assessment prompt between the competency id and the
class level. -/
def assessP2 : String :=
  "'.\n        Le niveau général de la classe est '"

/-- Text of the collective-assessment prompt after the class level. -/
def assessP3 : String :=
  "'.\n        Le devoir doit être concis, pertinent et permettre de valider rapidement la maîtrise de la compétence par l'ensemble de la classe.\n        Il peut prendre la forme d'un QCM, d'un problème court ou d'une étude de cas simple.\n        "

/-- collective_validation_agent.py lines 28-56, `generate_collective_assessment`:
the chat request dispatched to the service (the Python default for
`student_level` is "moyen"). -/
def generate_collective_assessment (competence_id student_level : String) : ChatRequest :=
  { system := "Vous êtes un ingénieur pédagogique spécialisé dans la création d'évaluations collectives.",
    user := assessP1 ++ competence_id ++ assessP2 ++ student_level ++ assessP3 }

/-- Result of the Collective Validation Gate: either the assessment request is
dispatched, or nothing happens.  Models the composition used by the module
(collective_validation_agent.py lines 74-80): `generate_collective_assessment`
is invoked only when `check_collective_mastery` returned `True`; a `False`
return is a bare boolean and triggers no further call. -/
inductive GateResult where
  | dispatch : ChatRequest → GateResult
  | noAction : GateResult
deriving DecidableEq

/-- The Collective Validation Gate as composed in the module
(collective_validation_agent.py lines 74-80). -/
def collective_validation_gate (student_progress_data : List StudentProgress)
    (competence_id : String) (threshold : ℚ) (student_level : String) : GateResult :=
  if check_collective_mastery student_progress_data competence_id threshold then
    GateResult.dispatch (generate_collective_assessment competence_id student_level)
  else
    GateResult.noAction

/-- The sample roster of collective_validation_agent.py lines 67-71: ten
students, nine of them marked "maîtrisé" for competency "D1.3". -/
def progress_data : List StudentProgress :=
  [[("D1.3", "maîtrisé")], [("D1.3", "maîtrisé")], [("D1.3", "en cours")], [("D1.3", "maîtrisé")],
   [("D1.3", "maîtrisé")], [("D1.3", "maîtrisé")], [("D1.3", "maîtrisé")], [("D1.3", "maîtrisé")],
   [("D1.3", "maîtrisé")], [("D1.3", "maîtrisé")]]

/-- A roster of ten students with eight marked "maîtrisé" for "D1.3". -/
def roster8 : List StudentProgress :=
  [[("D1.3", "maîtrisé")], [("D1.3", "maîtrisé")], [("D1.3", "en cours")], [("D1.3", "en cours")],
   [("D1.3", "maîtrisé")], [("D1.3", "maîtrisé")], [("D1.3", "maîtrisé")], [("D1.3", "maîtrisé")],
   [("D1.3", "maîtrisé")], [("D1.3", "maîtrisé")]]

/-- A roster of ten students with five marked "maîtrisé" for "D1.3". -/
def roster5 : List StudentProgress :=
  [[("D1.3", "maîtrisé")], [("D1.3", "maîtrisé")], [("D1.3", "en cours")], [("D1.3", "en cours")],
   [("D1.3", "en cours")], [("D1.3", "en cours")], [("D1.3", "en cours")], [("D1.3", "maîtrisé")],
   [("D1.3", "maîtrisé")], [("D1.3", "maîtrisé")]]

/-- A competency entry of the framework document: the dict shape
`referentiels: [ { competences: [ {id, name, description, indicateurs}, ... ] }, ... ]`
expected by academic_compliance_agent.py. -/
structure Competence where
  id : String
  name : String
  description : String
  indicateurs : List String
deriving DecidableEq

/-- One entry of the `referentiels` list: a domain owning its competencies. -/
structure Referentiel where
  competences : List Competence
deriving DecidableEq

/-- The parsed framework document held in `self.referentiels`. -/
structure Referentiels where
  referentiels : List Referentiel
deriving DecidableEq

/-- Outcome of loading the framework source: either the framework, or the
`FrameworkLoadError` the spec describes. -/
inductive LoadResult where
  | ok : Referentiels → LoadResult
  | frameworkLoadError : String → LoadResult
deriving DecidableEq

/-- academic_compliance_agent.py lines 10-12, `_load_referentiels`: the method
returns `yaml.safe_load(file)` unchanged.  Given a source that parses to the
document `doc`, the load performs no structural validation whatsoever — no
duplicate-id check, no indicator check — and never signals a load error. -/
def load_referentiels (doc : Referentiels) : LoadResult :=
  LoadResult.ok doc

/-- The competencies of the framework in document order: first domain, then
each competency within it, exactly the order of the Python generator
`(c for r in self.referentiels["referentiels"] for c in r["competences"])`. -/
def flattenCompetences (refs : Referentiels) : List Competence :=
  refs.referentiels.flatMap (fun r => r.competences)

/-- academic_compliance_agent.py line 23 (also 67 and 105): the lookup
`next((c for r in ... for c in ... if c["id"] == competence_id), None)`. -/
def findCompetence (refs : Referentiels) (competence_id : String) : Option Competence :=
  (flattenCompetences refs).find? (fun c => c.id == competence_id)

/-- Result of a compliance-agent operation before the external call: either
the chat request that is dispatched to the content-generation service, or the
error dict returned without any dispatch. -/
inductive AgentResult where
  | dispatch : ChatRequest → AgentResult
  | error : String → AgentResult
deriving DecidableEq

/-- The user prompt of `check_compliance` (academic_compliance_agent.py
lines 27-36); `'- '.join(...)` becomes `String.intercalate "- "`. -/
def compliance_prompt (c : Competence) (content_to_check : String) : String :=
  "\n        En tant qu'expert en conformité académique, analysez le contenu pédagogique suivant et déterminez s'il est conforme aux indicateurs de la compétence '"
    ++ c.name ++ "' (" ++ c.description
    ++ ").\n        Indicateurs de la compétence:\n        "
    ++ String.intercalate "- " c.indicateurs
    ++ "\n\n        Contenu pédagogique à vérifier:\n        " ++ content_to_check
    ++ "\n\n        Fournissez une évaluation claire (Conforme, Partiellement Conforme, Non Conforme) et des suggestions spécifiques pour améliorer la conformité si nécessaire.\n        "

/-- academic_compliance_agent.py lines 14-55, `check_compliance` up to the
external call: resolve the competency; when absent return the error dict of
line 25 and dispatch nothing, otherwise dispatch the built request. -/
def check_compliance (refs : Referentiels) (content_to_check competence_id : String) : AgentResult :=
  match findCompetence refs competence_id with
  | none => AgentResult.error ("Compétence " ++ competence_id ++ " non trouvée dans les référentiels.")
  | some c => AgentResult.dispatch
      { system := "Vous êtes un assistant expert en conformité académique.",
        user := compliance_prompt c content_to_check }

/-- The `student_data` dict as the plan generators use it: only the optional
`name` entry is read (`student_data.get('name', 'cet élève')`). -/
structure StudentData where
  name : Option String
deriving DecidableEq

/-- The user prompt of `generate_remediation_plan`
(academic_compliance_agent.py lines 71-76). -/
def remediation_prompt (student_data : StudentData) (c : Competence) (identified_gaps : String) : String :=
  "\n        Générez un plan de remédiation personnalisé pour l'élève "
    ++ student_data.name.getD "cet élève"
    ++ ", qui a des lacunes identifiées suivantes pour la compétence '" ++ c.name
    ++ "' (" ++ c.description ++ ") :\n        Lacunes: " ++ identified_gaps
    ++ "\n\n        Le plan doit inclure des exercices spécifiques, des ressources et des étapes claires pour améliorer la maîtrise de cette compétence.\n        "

/-- academic_compliance_agent.py lines 57-94, `generate_remediation_plan` up
to the external call. -/
def generate_remediation_plan (refs : Referentiels) (student_data : StudentData)
    (competence_id identified_gaps : String) : AgentResult :=
  match findCompetence refs competence_id with
  | none => AgentResult.error ("Compétence " ++ competence_id ++ " non trouvée.")
  | some c => AgentResult.dispatch
      { system := "Vous êtes un tuteur IA expert en pédagogie.",
        user := remediation_prompt student_data c identified_gaps }

/-- The user prompt of `generate_enrichment_plan`
(academic_compliance_agent.py lines 109-112). -/
def enrichment_prompt (student_data : StudentData) (c : Competence) : String :=
  "\n        Générez un plan d'approfondissement pour l'élève "
    ++ student_data.name.getD "cet élève"
    ++ ", qui a démontré une excellente maîtrise de la compétence '" ++ c.name
    ++ "' (" ++ c.description
    ++ ").\n        Le plan doit inclure des projets avancés, des lectures complémentaires ou des défis créatifs pour stimuler son intérêt et étendre ses connaissances.\n        "

/-- academic_compliance_agent.py lines 96-130, `generate_enrichment_plan` up
to the external call. -/
def generate_enrichment_plan (refs : Referentiels) (student_data : StudentData)
    (competence_id : String) : AgentResult :=
  match findCompetence refs competence_id with
  | none => AgentResult.error ("Compétence " ++ competence_id ++ " non trouvée.")
  | some c => AgentResult.dispatch
      { system := "Vous êtes un tuteur IA expert en pédagogie et en développement de talents.",
        user := enrichment_prompt student_data c }

/-- State-passing form of `check_compliance`: the second component is
`self.referentiels` after the call.  The method body (lines 14-55) never
reassigns the attribute, so the post-state is the pre-state. -/
def check_complianceS (refs : Referentiels) (content_to_check competence_id : String) :
    AgentResult × Referentiels :=
  (check_compliance refs content_to_check competence_id, refs)

/-- State-passing form of `generate_remediation_plan` (lines 57-94 never
reassign `self.referentiels`). -/
def generate_remediation_planS (refs : Referentiels) (student_data : StudentData)
    (competence_id identified_gaps : String) : AgentResult × Referentiels :=
  (generate_remediation_plan refs student_data competence_id identified_gaps, refs)

/-- State-passing form of `generate_enrichment_plan` (lines 96-130 never
reassign `self.referentiels`). -/
def generate_enrichment_planS (refs : Referentiels) (student_data : StudentData)
    (competence_id : String) : AgentResult × Referentiels :=
  (generate_enrichment_plan refs student_data competence_id, refs)

/-- State-passing form of the competency lookup of line 23: a pure read of
`self.referentiels`. -/
def findCompetenceS (refs : Referentiels) (competence_id : String) :
    Option Competence × Referentiels :=
  (findCompetence refs competence_id, refs)

/-- Result of `orchestrate_workflow`: the success dict of
gemini_compliance_agent.py line 51 or the error dict of line 53. -/
inductive OrchestrationResult where
  | success : String → OrchestrationResult
  | error : String → OrchestrationResult
deriving DecidableEq

/-- Text of the orchestration prompt before the workflow description
(gemini_compliance_agent.py lines 40-48). -/
def orchP1 : String :=
  "\n        En tant qu'orchestrateur de workflow IA, analysez la description du workflow suivante :\n        "

/-- Text of the orchestration prompt between the description and the current
state. -/
def orchP2 : String :=
  "\n\n        L'état actuel du workflow est :\n        "

/-- Text of the orchestration prompt after the current state. -/
def orchP3 : String :=
  "\n\n        Déterminez la prochaine étape logique à exécuter, en tenant compte des dépendances et des conditions.\n        "

/-- The prompt of `orchestrate_workflow` (gemini_compliance_agent.py
lines 40-48). -/
def orchestration_prompt (workflow_description current_state : String) : String :=
  orchP1 ++ workflow_description ++ orchP2 ++ current_state ++ orchP3

/-- gemini_compliance_agent.py lines 31-53, `orchestrate_workflow`: the whole
next-stage decision is one call to the external generation service, modelled
by the oracle `generate_content` (`.error e` stands for a raised exception
with message `e`, caught by the `except` block of line 52). -/
def orchestrate_workflow (generate_content : String → Except String String)
    (workflow_description current_state : String) : OrchestrationResult :=
  match generate_content (orchestration_prompt workflow_description current_state) with
  | Except.ok t => OrchestrationResult.success t
  | Except.error e => OrchestrationResult.error ("Erreur lors de l'orchestration du workflow : " ++ e)

/-- First occurrence of id "D1.3" in the duplicate-id document, with zero
indicators. -/
def compA : Competence :=
  { id := "D1.3", name := "Compétence A", description := "Première occurrence", indicateurs := [] }

/-- Second occurrence of id "D1.3" in the duplicate-id document. -/
def compB : Competence :=
  { id := "D1.3", name := "Compétence B", description := "Seconde occurrence",
    indicateurs := ["Utiliser le théorème de Pythagore"] }

/-- A framework document holding two competencies that share the id "D1.3"
(the first of them with zero indicators). -/
def dupDoc : Referentiels :=
  { referentiels := [ { competences := [compA] }, { competences := [compB] } ] }

/-- A well-formed framework document: unique ids, every competency with at
least one indicator. -/
def sampleDoc : Referentiels :=
  { referentiels := [ { competences := [compB] } ] }

/-- The truth value of `check_collective_mastery` is exactly the rational
comparison it decides. -/
theorem check_collective_mastery_eq_true_iff (data : List StudentProgress)
    (competence_id : String) (t : ℚ) :
    check_collective_mastery data competence_id t = true ↔
      mastery_ratio data competence_id ≥ t := by
  simp [check_collective_mastery]

/-- Evaluation of the sample roster: nine of the ten students carry the exact
label "maîtrisé" for "D1.3". -/
theorem progress_data_ratio : mastery_ratio progress_data "D1.3" = 9 / 10 := by
  have h9 : mastery_count progress_data "D1.3" = 9 := by decide
  have h10 : progress_data.length = 10 := by decide
  have hne : progress_data.isEmpty = false := by decide
  rw [mastery_ratio, hne, h9, h10]
  norm_num

/-- C1 (corrected), counterexample: on the empty roster with threshold 0 the
code returns threshold-met = true (the computed ratio 0 satisfies `0 >= 0`),
contradicting the claim that the empty roster yields threshold-met = false for
every threshold. -/
theorem check_collective_mastery_empty_zero_threshold :
    check_collective_mastery [] "D1.3" 0 = true := by
  simp [check_collective_mastery, mastery_ratio]

/-- C1 (amended): for every competency id and every positive threshold,
`check_collective_mastery` on the empty roster computes ratio = 0 and returns
threshold-met = false; the division is guarded by the emptiness conditional,
so no division-by-zero can occur (the function is total). -/
theorem check_collective_mastery_empty_roster (competence_id : String) (threshold : ℚ)
    (h : 0 < threshold) :
    mastery_ratio [] competence_id = 0 ∧
    check_collective_mastery [] competence_id threshold = false := by
  refine ⟨rfl, ?_⟩
  simp [check_collective_mastery, mastery_ratio]
  exact h

/-- Witness for C1 at the default threshold 0.9. -/
theorem check_collective_mastery_empty_roster_witness :
    mastery_ratio [] "D1.3" = 0 ∧ check_collective_mastery [] "D1.3" (9 / 10) = false :=
  check_collective_mastery_empty_roster "D1.3" (9 / 10) (by norm_num)

/-- C2 (confirmed): for every roster and threshold, threshold-met is true
exactly when the computed ratio is at least the threshold (closed lower
bound), and the 10-student roster with 9 Mastered meets threshold 0.9. -/
theorem check_collective_mastery_threshold_boundary :
    (∀ (data : List StudentProgress) (competence_id : String) (t : ℚ),
        check_collective_mastery data competence_id t = true ↔
          mastery_ratio data competence_id ≥ t) ∧
    check_collective_mastery progress_data "D1.3" (9 / 10) = true := by
  refine ⟨check_collective_mastery_eq_true_iff, ?_⟩
  rw [check_collective_mastery_eq_true_iff, progress_data_ratio]

/-- C3 (confirmed): for every non-empty roster, the ratio equals the count of
students whose entry for the competency is exactly "maîtrisé", divided by the
roster size at evaluation time. -/
theorem mastery_ratio_eq_count_div_size (data : List StudentProgress)
    (competence_id : String) (h : data ≠ []) :
    mastery_ratio data competence_id =
      (mastery_count data competence_id : ℚ) / (data.length : ℚ) := by
  cases data with
  | nil => exact absurd rfl h
  | cons a l => rw [mastery_ratio]; rfl

/-- Witness for C3 on the sample roster. -/
theorem mastery_ratio_eq_count_div_size_witness :
    mastery_ratio progress_data "D1.3" =
      (mastery_count progress_data "D1.3" : ℚ) / (progress_data.length : ℚ) :=
  mastery_ratio_eq_count_div_size progress_data "D1.3" (by decide)

/-- C10 (confirmed): a student counts toward the numerator only when the entry
for the competency id is exactly the string "maîtrisé"; appending a student
whose entry is missing or holds any other label grows the denominator but not
the numerator, and the evaluation is total (no error on unrecognized labels). -/
theorem mastery_count_exact_label (data : List StudentProgress) (competence_id : String)
    (s : StudentProgress) (h : dictGet s competence_id ≠ some "maîtrisé") :
    mastery_count data competence_id =
        data.countP (fun st => dictGet st competence_id == some "maîtrisé") ∧
    mastery_count (data ++ [s]) competence_id = mastery_count data competence_id ∧
    (data ++ [s]).length = data.length + 1 ∧
    mastery_ratio (data ++ [s]) competence_id =
      (mastery_count data competence_id : ℚ) / ((data.length : ℚ) + 1) := by
  have hb : (dictGet s competence_id == some "maîtrisé") = false := by
    simpa using h
  have h2 : mastery_count (data ++ [s]) competence_id = mastery_count data competence_id := by
    simp [mastery_count, List.countP_append, List.countP_cons, hb]
  refine ⟨rfl, h2, by simp, ?_⟩
  have hne : (data ++ [s]) ≠ [] := by simp
  rw [mastery_ratio_eq_count_div_size (data ++ [s]) competence_id hne, h2]
  have hlen : ((data ++ [s]).length : ℚ) = (data.length : ℚ) + 1 := by
    simp
  rw [hlen]

/-- Witness for C10: appending a student labelled "en cours" to the sample
roster. -/
theorem mastery_count_exact_label_witness :
    mastery_count (progress_data ++ [[("D1.3", "en cours")]]) "D1.3" =
        mastery_count progress_data "D1.3" ∧
    mastery_ratio (progress_data ++ [[("D1.3", "en cours")]]) "D1.3" =
      (mastery_count progress_data "D1.3" : ℚ) / ((progress_data.length : ℚ) + 1) :=
  (fun T => ⟨T.2.1, T.2.2.2⟩)
    (mastery_count_exact_label progress_data "D1.3" [("D1.3", "en cours")] (by decide))

/-- C4 (corrected), counterexample: the framework document holding two
competencies that share the id "D1.3", the first with zero indicators, loads
successfully — `_load_referentiels` returns the parsed document as is instead
of failing with FrameworkLoadError. -/
theorem load_referentiels_duplicate_ok :
    load_referentiels dupDoc = LoadResult.ok dupDoc := rfl

/-- C4 (amended): `_load_referentiels` performs no structural validation at
all: every parsed document — with duplicate ids, with zero-indicator
competencies, or well-formed — loads successfully and unchanged, and
FrameworkLoadError is never signalled. -/
theorem load_referentiels_no_validation (doc : Referentiels) :
    load_referentiels doc = LoadResult.ok doc ∧
    ∀ e, load_referentiels doc ≠ LoadResult.frameworkLoadError e :=
  ⟨rfl, fun _ h => LoadResult.noConfusion h⟩

/-- C5 (confirmed): when the competency id resolves to nothing, each of the
three operations returns the error dict immediately and no chat request is
dispatched to the content-generation service. -/
theorem not_found_no_dispatch (refs : Referentiels) (content_to_check : String)
    (student_data : StudentData) (competence_id identified_gaps : String)
    (h : findCompetence refs competence_id = none) :
    check_compliance refs content_to_check competence_id =
        AgentResult.error ("Compétence " ++ competence_id ++ " non trouvée dans les référentiels.") ∧
    generate_remediation_plan refs student_data competence_id identified_gaps =
        AgentResult.error ("Compétence " ++ competence_id ++ " non trouvée.") ∧
    generate_enrichment_plan refs student_data competence_id =
        AgentResult.error ("Compétence " ++ competence_id ++ " non trouvée.") ∧
    ∀ req : ChatRequest,
      check_compliance refs content_to_check competence_id ≠ AgentResult.dispatch req ∧
      generate_remediation_plan refs student_data competence_id identified_gaps ≠
        AgentResult.dispatch req ∧
      generate_enrichment_plan refs student_data competence_id ≠ AgentResult.dispatch req := by
  simp [check_compliance, generate_remediation_plan, generate_enrichment_plan, h]

/-- Witness for C5: id "X9.9" is absent from the well-formed sample
framework. -/
theorem not_found_no_dispatch_witness :
    check_compliance sampleDoc "Le théorème de Pythagore permet de calculer." "X9.9" =
        AgentResult.error ("Compétence " ++ "X9.9" ++ " non trouvée dans les référentiels.") ∧
    generate_remediation_plan sampleDoc { name := some "Alice" } "X9.9" "Lacunes identifiées" =
        AgentResult.error ("Compétence " ++ "X9.9" ++ " non trouvée.") ∧
    generate_enrichment_plan sampleDoc { name := some "Alice" } "X9.9" =
        AgentResult.error ("Compétence " ++ "X9.9" ++ " non trouvée.") :=
  (fun T => ⟨T.1, T.2.1, T.2.2.1⟩)
    (not_found_no_dispatch sampleDoc "Le théorème de Pythagore permet de calculer."
      { name := some "Alice" } "X9.9" "Lacunes identifiées" (by decide))

/-- C6 (corrected), counterexample: with declared stages "A, B, C" and the
unmatched completed stage "Z", `orchestrate_workflow` returns whatever
next-step text the external generation service produces — two different
service answers give two different successful results on identical inputs —
instead of deterministically signalling UnrecognizedStage. -/
theorem orchestrate_workflow_oracle_dependent :
    orchestrate_workflow (fun _ => Except.ok "B")
        "Étapes du workflow : A, B, C" "Z" = OrchestrationResult.success "B" ∧
    orchestrate_workflow (fun _ => Except.ok "La prochaine étape est D")
        "Étapes du workflow : A, B, C" "Z" =
      OrchestrationResult.success "La prochaine étape est D" :=
  ⟨rfl, rfl⟩

/-- C6 (amended): `orchestrate_workflow` delegates the next-stage decision
wholesale to the external generation service: it embeds the declared stage
description and the completed-stage text in one prompt, returns the service's
free-text answer as the suggested next steps, and maps a service exception to
the error dict; it performs no stage-sequence matching and never signals
UnrecognizedStage. -/
theorem orchestrate_workflow_delegates (generate_content : String → Except String String)
    (workflow_description current_state : String) :
    (∃ a b c, orchestration_prompt workflow_description current_state =
        a ++ workflow_description ++ b ++ current_state ++ c) ∧
    (∀ t, generate_content (orchestration_prompt workflow_description current_state) =
        Except.ok t →
      orchestrate_workflow generate_content workflow_description current_state =
        OrchestrationResult.success t) ∧
    (∀ e, generate_content (orchestration_prompt workflow_description current_state) =
        Except.error e →
      orchestrate_workflow generate_content workflow_description current_state =
        OrchestrationResult.error ("Erreur lors de l'orchestration du workflow : " ++ e)) := by
  refine ⟨⟨orchP1, orchP2, orchP3, rfl⟩, ?_, ?_⟩
  · intro t h
    simp [orchestrate_workflow, h]
  · intro e h
    simp [orchestrate_workflow, h]

/-- C7 (corrected), counterexample: two rosters with different sub-threshold
ratios (8/10 and 5/10) produce the identical bare no-action result, so the
not-met result of the gate cannot carry the current ratio as the claim
states. -/
theorem collective_gate_no_ratio_in_result :
    collective_validation_gate roster8 "D1.3" (9 / 10) "moyen" = GateResult.noAction ∧
    collective_validation_gate roster5 "D1.3" (9 / 10) "moyen" = GateResult.noAction ∧
    mastery_ratio roster8 "D1.3" ≠ mastery_ratio roster5 "D1.3" := by
  have r8 : mastery_ratio roster8 "D1.3" = 8 / 10 := by
    have h8 : mastery_count roster8 "D1.3" = 8 := by decide
    have h10 : roster8.length = 10 := by decide
    have hne : roster8.isEmpty = false := by decide
    rw [mastery_ratio, hne, h8, h10]
    norm_num
  have r5 : mastery_ratio roster5 "D1.3" = 5 / 10 := by
    have h5 : mastery_count roster5 "D1.3" = 5 := by decide
    have h10 : roster5.length = 10 := by decide
    have hne : roster5.isEmpty = false := by decide
    rw [mastery_ratio, hne, h5, h10]
    norm_num
  have c8 : check_collective_mastery roster8 "D1.3" (9 / 10) = false := by
    have : ¬ (mastery_ratio roster8 "D1.3" ≥ 9 / 10) := by rw [r8]; norm_num
    simpa [check_collective_mastery] using this
  have c5 : check_collective_mastery roster5 "D1.3" (9 / 10) = false := by
    have : ¬ (mastery_ratio roster5 "D1.3" ≥ 9 / 10) := by rw [r5]; norm_num
    simpa [check_collective_mastery] using this
  refine ⟨?_, ?_, ?_⟩
  · simp [collective_validation_gate, c8]
  · simp [collective_validation_gate, c5]
  · rw [r8, r5]; norm_num

/-- C7 (amended): when the threshold is met the gate dispatches the assessment
request, whose prompt carries the competency id and the class-level label;
when the threshold is not met the gate returns the bare no-action value, which
carries no ratio. -/
theorem collective_gate_spec (data : List StudentProgress) (competence_id : String)
    (t : ℚ) (student_level : String) :
    (check_collective_mastery data competence_id t = true →
      collective_validation_gate data competence_id t student_level =
        GateResult.dispatch
          { system := "Vous êtes un ingénieur pédagogique spécialisé dans la création d'évaluations collectives.",
            user := assessP1 ++ competence_id ++ assessP2 ++ student_level ++ assessP3 }) ∧
    (check_collective_mastery data competence_id t = false →
      collective_validation_gate data competence_id t student_level = GateResult.noAction) := by
  constructor
  · intro h
    simp [collective_validation_gate, generate_collective_assessment, h]
  · intro h
    simp [collective_validation_gate, h]

/-- C8 (confirmed): the compliance-agent operations are pure with respect to
the loaded framework: each leaves `self.referentiels` unchanged, and repeated
lookups of the same id against the unchanged framework — including a lookup
after any other core operation — return identical results. -/
theorem core_operations_pure (refs : Referentiels) (content_to_check : String)
    (student_data : StudentData) (competence_id identified_gaps : String) :
    (findCompetenceS refs competence_id).2 = refs ∧
    (check_complianceS refs content_to_check competence_id).2 = refs ∧
    (generate_remediation_planS refs student_data competence_id identified_gaps).2 = refs ∧
    (generate_enrichment_planS refs student_data competence_id).2 = refs ∧
    (findCompetenceS ((findCompetenceS refs competence_id).2) competence_id).1 =
      (findCompetenceS refs competence_id).1 ∧
    (findCompetenceS ((check_complianceS refs content_to_check competence_id).2) competence_id).1 =
      (findCompetenceS refs competence_id).1 :=
  ⟨rfl, rfl, rfl, rfl, rfl, rfl⟩

/-- Auxiliary: `List.find?` returns the head of the filtered list. -/
theorem find?_eq_filter_head? {α : Type} (p : α → Bool) (l : List α) :
    l.find? p = (l.filter p).head? := by
  induction l with
  | nil => rfl
  | cons a t ih =>
    cases hp : p a
    · rw [List.find?_cons_of_neg _ (by simp [hp]), List.filter_cons_of_neg (by simp [hp]), ih]
    · rw [List.find?_cons_of_pos _ hp, List.filter_cons_of_pos hp, List.head?_cons]

/-- C9 (confirmed): when two or more competencies of the loaded framework
share the requested id, the lookup silently returns the first matching
competency in document order (first domain, then first competency within it)
and signals no ambiguity error. -/
theorem findCompetence_first_match (refs : Referentiels) (competence_id : String)
    (h : 2 ≤ ((flattenCompetences refs).filter (fun c => c.id == competence_id)).length) :
    findCompetence refs competence_id =
      ((flattenCompetences refs).filter (fun c => c.id == competence_id)).head? ∧
    ∃ c, findCompetence refs competence_id = some c := by
  have he := find?_eq_filter_head? (fun c => c.id == competence_id) (flattenCompetences refs)
  refine ⟨he, ?_⟩
  cases hf : (flattenCompetences refs).filter (fun c => c.id == competence_id) with
  | nil => rw [hf] at h; simp at h
  | cons c tl =>
    refine ⟨c, ?_⟩
    show (flattenCompetences refs).find? (fun c => c.id == competence_id) = some c
    rw [he, hf]
    rfl

/-- Witness for C9: in the duplicate-id document the lookup of "D1.3" returns
the first occurrence (the zero-indicator competency of the first domain). -/
theorem findCompetence_first_match_witness :
    findCompetence dupDoc "D1.3" = some compA := by
  rw [(findCompetence_first_match dupDoc "D1.3" (by decide)).1]
  decide

